import Mathlib

/-! Shallow embedding of `src/pages/api/analyze-medical-data.js`: the
medical-report analysis endpoint of the HealthTech_AI repository.

The pipeline is: validate the multipart submission, classify and extract
content from each uploaded file, compose a prompt document, invoke the
remote generative model through a retry-with-backoff loop, translate the
outcome into an HTTP response, and (on the success path) delete the
request's temporary files.

File-system reads, PDF parsing and the remote service are modelled by
explicit oracles: each uploaded file carries the outcome of the three
fallible operations the handler may apply to it, and the remote service
is a function from attempt index to an outcome.  Waits (`setTimeout`)
are recorded in a trace instead of performed. -/

namespace HealthTech

/-- Outcomes of the fallible operations the handler may apply to one
uploaded file's temporary storage.  `readBase64 = some b` means
`fs.readFileSync` succeeds and `fileToBase64` yields `b`; `none` means
the read throws.  `pdfText = some t` means `readFileSync` plus
`pdf(fileBuffer)` succeed with extracted text `t`; `none` means either
throws.  `utf8Text` is the result of `fs.readFileSync(path, 'utf8')`. -/
structure FsEnv where
  readBase64 : Option String
  pdfText : Option String
  utf8Text : Option String
deriving DecidableEq

/-- One entry of `files.files` as produced by formidable: the client-side
name, the temporary storage path, and the file-system oracle for it. -/
structure UploadedFile where
  originalFilename : String
  filepath : String
  fsEnv : FsEnv
deriving DecidableEq

/-- The `split('.').pop()` step of `getMimeType`: lower-cased final
extension segment of a filename (the characters after the last dot, the
whole name when there is no dot). -/
def extOf (filename : String) : String :=
  ⟨(filename.data.map Char.toLower).foldl (fun acc c => if c = '.' then [] else acc ++ [c]) []⟩

/-- JavaScript `String.prototype.startsWith`. -/
def strStartsWith (s pre : String) : Bool :=
  pre.data.isPrefixOf s.data

/-- JavaScript `String.prototype.trim`: strip leading and trailing
whitespace. -/
def jsTrim (s : String) : String :=
  ⟨((s.data.dropWhile Char.isWhitespace).reverse.dropWhile Char.isWhitespace).reverse⟩

/-- `getMimeType` from the source: fixed extension-to-MIME mapping with an
octet-stream default. -/
def getMimeType (filename : String) : String :=
  let ext := extOf filename
  if ext = "pdf" then "application/pdf"
  else if ext = "jpg" then "image/jpeg"
  else if ext = "jpeg" then "image/jpeg"
  else if ext = "png" then "image/png"
  else if ext = "dcm" then "application/dicom"
  else "application/octet-stream"

/-- The object pushed onto `processedFiles`, with the optional fields the
source's three branches set. -/
structure ProcessedFile where
  name : String
  type : String
  data : Option String
  textContent : Option String
  isImage : Bool
  isPdf : Bool
  isText : Bool
deriving DecidableEq

/-- The placeholder text the PDF branch records when extraction fails. -/
def pdfPlaceholder : String := "Could not extract text from PDF"

/-- One iteration of the source's per-file loop: the optional
`processedFiles` entry it pushes and the `extractedTextContent` fragment
it appends.  Image branch: base64-encode, skip on read failure (outer
catch).  PDF branch: extract text, or push the placeholder entry on
failure.  Other branch: read as UTF-8, silently skip on failure. -/
def processFile (file : UploadedFile) : Option ProcessedFile × String :=
  let mimeType := getMimeType file.originalFilename
  if strStartsWith mimeType "image/" then
    match file.fsEnv.readBase64 with
    | some base64Data =>
        (some ⟨file.originalFilename, mimeType, some base64Data, none, true, false, false⟩, "")
    | none => (none, "")
  else if mimeType = "application/pdf" then
    match file.fsEnv.pdfText with
    | some text =>
        (some ⟨file.originalFilename, mimeType, none, some text, false, true, false⟩,
         "\n\n=== PDF Content from " ++ file.originalFilename ++ " ===\n" ++ text ++ "\n")
    | none =>
        (some ⟨file.originalFilename, mimeType, none, some pdfPlaceholder, false, true, false⟩, "")
  else
    match file.fsEnv.utf8Text with
    | some textContent =>
        (some ⟨file.originalFilename, mimeType, none, some textContent, false, false, true⟩,
         "\n\n=== Text Content from " ++ file.originalFilename ++ " ===\n" ++ textContent ++ "\n")
    | none => (none, "")

/-- The whole per-file loop: `processedFiles` and `extractedTextContent`
accumulated in upload order. -/
def processFiles : List UploadedFile → List ProcessedFile × String
  | [] => ([], "")
  | file :: rest =>
    let step := processFile file
    let acc := processFiles rest
    (step.1.toList ++ acc.1, step.2 ++ acc.2)

/-- JavaScript `x || dflt` on an optional string field: `undefined` and
the empty string both select the fallback. -/
def jsOrElse (v : Option String) (dflt : String) : String :=
  match v with
  | some s => if s = "" then dflt else s
  | none => dflt

/-- JavaScript template interpolation of a possibly-undefined string:
`undefined` prints as the literal text "undefined". -/
def jsInterp (v : Option String) : String :=
  match v with
  | some s => s
  | none => "undefined"

/-- The `data` field's parsed `patientInfo` object. -/
structure PatientInfo where
  name : String
  age : Option String
  gender : Option String
  symptoms : Option String
  urgency : Option String
deriving DecidableEq

/-- The `data` field's parsed `location` object. -/
structure Location where
  city : Option String
  country : Option String
deriving DecidableEq

/-- The JSON payload of the `data` form field. -/
structure FormData where
  medicalData : Option (List String)
  patientInfo : Option PatientInfo
  location : Option Location
deriving DecidableEq

/-- `medicalData?.join(', ') || 'None specified'`. -/
def joinedTests (md : Option (List String)) : String :=
  match md with
  | some l =>
    let j := String.intercalate ", " l
    if j = "" then "None specified" else j
  | none => "None specified"

/-- The `hospitalPrompt` template literal, with every interpolation made
explicit; static text transcribed verbatim from the source. -/
def hospitalPrompt (pi : PatientInfo) (medicalData : Option (List String))
    (location : Option Location) (processedFiles : List ProcessedFile) : String :=
  "\nYou are a medical AI assistant specializing in hospital recommendations. Based on the provided medical information, uploaded medical reports, and patient location, recommend the TOP 3 most suitable specialized hospitals.\n\n**Patient Information:**\n- Name: "
  ++ pi.name
  ++ "\n- Age: " ++ jsOrElse pi.age "Not specified"
  ++ "\n- Gender: " ++ jsOrElse pi.gender "Not specified"
  ++ "\n- Symptoms: " ++ jsOrElse pi.symptoms "None specified"
  ++ "\n- Urgency Level: " ++ jsOrElse pi.urgency "Normal"
  ++ "\n\n**Medical Tests Selected:** " ++ joinedTests medicalData
  ++ "\n\n**Uploaded Medical Reports:** " ++ toString processedFiles.length ++ " files uploaded\n"
  ++ String.intercalate "\n" (processedFiles.map fun f => "- " ++ f.name ++ " (" ++ f.type ++ ")")
  ++ "\n\n**Patient Location:** " ++ jsOrElse (location.bind (fun l => l.city)) "Not specified"
  ++ ", " ++ jsOrElse (location.bind (fun l => l.country)) "Not specified"
  ++ "\n\n**IMPORTANT ANALYSIS REQUIREMENTS:**\nBased on the uploaded medical reports and patient information, first analyze the medical condition and then provide hospital recommendations.\n\n**For each hospital recommendation, provide:**\n1. **Hospital Name** and exact location/address\n2. **Medical Condition Analysis** (what condition you detected from the reports)\n3. **Why This Hospital** (specific specializations matching the detected condition)\n4. **Key Specialists/Departments** (specific doctors or departments)\n5. **Distance & Travel Info** from "
  ++ jsOrElse (location.bind (fun l => l.city)) "patient location"
  ++ "\n6. **Appointment Booking** (phone numbers, website, process)\n7. **Estimated Costs** (consultation, tests, treatment range)\n8. **Best Time to Visit** based on urgency level: "
  ++ jsInterp pi.urgency
  ++ "\n9. **What Makes It Special** (unique equipment, success rates, certifications)\n10. **Expected Timeline** (how soon can patient be seen)\n\n**CRITICAL:** \n- Analyze the medical reports thoroughly to understand the patient's condition\n- Recommend hospitals that are ACTUALLY specialized for the specific condition found\n- Provide REAL, actionable information that the patient can use immediately\n- Include contact details and specific department names\n- Consider the urgency level when prioritizing hospitals\n- Explain WHY each hospital is recommended based on the medical findings\n\nFormat the response with clear sections and detailed explanations for each recommendation.\n"

/-- The `enhancedPrompt` step: append the extracted-text block when the
accumulated buffer is not blank. -/
def enhancedPrompt (hospitalPromptText extractedTextContent : String) : String :=
  if jsTrim extractedTextContent ≠ "" then
    hospitalPromptText ++ "\n\n**EXTRACTED TEXT FROM MEDICAL REPORTS:**" ++ extractedTextContent
  else hospitalPromptText

/-- The constant `analysisInstruction` template literal. -/
def analysisInstruction : String :=
  "\n\n**MANDATORY MEDICAL ANALYSIS:**\nYou MUST analyze the medical data provided and give hospital recommendations. You are capable of medical image analysis and text interpretation. DO NOT claim you cannot analyze the provided medical content.\n\n**YOUR TASK:**\n1. Examine ALL uploaded medical content (images, PDFs, text)\n2. Identify medical conditions, abnormalities, or health indicators\n3. Based on your findings, recommend specialized hospitals\n4. Provide detailed, actionable recommendations\n\n**YOU MUST PROVIDE:**\n- Specific medical condition analysis\n- 3 targeted hospital recommendations\n- Contact details and specialist information\n- Treatment timelines and costs\n\nBegin your analysis now:"

/-- The full text document handed to `generateContent`: the enhanced
prompt, the analysis instruction, and in the image branch the extra
banner line. -/
def fullPrompt (pi : PatientInfo) (medicalData : Option (List String))
    (location : Option Location) (processedFiles : List ProcessedFile)
    (extractedTextContent : String) (hasImages : Bool) : String :=
  let ep := enhancedPrompt (hospitalPrompt pi medicalData location processedFiles) extractedTextContent
  if hasImages then ep ++ analysisInstruction ++ "\n\n**ANALYZE THESE MEDICAL IMAGES AND TEXT:**"
  else ep ++ analysisInstruction

/-- The structured error the generative client raises: HTTP-like status,
the RetryInfo delay (already parsed from its "Ns" duration string, when
present), whether any quota violation carries a PerDay/Daily marker, and
the error message. -/
structure RemoteError where
  status : Nat
  retryDelaySecs : Option Nat
  isDailyQuota : Bool
  message : String
deriving DecidableEq

/-- What one call to the remote model does. -/
inductive AttemptOutcome where
  | ok (text : String)
  | err (e : RemoteError)
deriving DecidableEq

/-- One iteration of the `retryWithBackoff` loop as observed from
outside: the attempt index, the `useFlashModel` argument passed to `fn`,
and the wait performed after the attempt, when it failed retryably. -/
structure AttemptRecord where
  attemptIndex : Nat
  useFlashModel : Bool
  waitAfterMs : Option Nat
deriving DecidableEq

/-- The `retryDelay` computation of the 429 branch (source lines 52-57):
start from the exponential backoff `baseDelay * 2 ^ attempt` and, when a
RetryInfo delay is present, take the larger of it (in milliseconds) and
the backoff. -/
def rateLimitWait (e : RemoteError) (baseDelay attempt : Nat) : Nat :=
  let delayTime := baseDelay * 2 ^ attempt
  match e.retryDelaySecs with
  | some seconds => max (seconds * 1000) delayTime
  | none => delayTime

/-- The body of the `retryWithBackoff` `for` loop, recursing on the
remaining iterations.  Mirrors the source: on a 429 with attempts left,
wait `rateLimitWait`; on 503 or any status ≥ 500 with attempts left,
wait the plain backoff; otherwise rethrow.  `useFlashModel` is threaded
through unchanged, as the loop never reassigns it.  The `none` result is
the loop falling through (only when `maxRetries = 0`). -/
def retryAux (outcomes : Nat → AttemptOutcome) (maxRetries baseDelay : Nat)
    (useFlashModel : Bool) : Nat → Nat → Option (Except RemoteError String) × List AttemptRecord
  | 0, _ => (none, [])
  | fuel + 1, attempt =>
    match outcomes attempt with
    | AttemptOutcome.ok text => (some (Except.ok text), [⟨attempt, useFlashModel, none⟩])
    | AttemptOutcome.err e =>
      if e.status = 429 ∧ attempt < maxRetries - 1 then
        let next := retryAux outcomes maxRetries baseDelay useFlashModel fuel (attempt + 1)
        (next.1, ⟨attempt, useFlashModel, some (rateLimitWait e baseDelay attempt)⟩ :: next.2)
      else if (e.status = 503 ∨ 500 ≤ e.status) ∧ attempt < maxRetries - 1 then
        let next := retryAux outcomes maxRetries baseDelay useFlashModel fuel (attempt + 1)
        (next.1, ⟨attempt, useFlashModel, some (baseDelay * 2 ^ attempt)⟩ :: next.2)
      else
        (some (Except.error e), [⟨attempt, useFlashModel, none⟩])

/-- `retryWithBackoff` from the source: `useFlashModel` is initialized to
`true` and the loop is run from attempt 0.  Returns the final result
(`Except.ok` on a successful call, `Except.error` with the last error
when retries exhaust or the error is not retryable) and the attempt
trace.  The source's `enableFallback` parameter is omitted here: it is
never read by the loop body. -/
def retryWithBackoff (outcomes : Nat → AttemptOutcome) (maxRetries baseDelay : Nat) :
    Option (Except RemoteError String) × List AttemptRecord :=
  let useFlashModel := true
  retryAux outcomes maxRetries baseDelay useFlashModel maxRetries 0

/-- `getModel` from the source: select the model name from the tier flag. -/
def getModel (useFlashModel : Bool) : String :=
  if useFlashModel then "gemini-1.5-flash" else "gemini-1.5-pro"

/-- One inline image attachment handed to the Vision API. -/
structure ImagePart where
  data : String
  mimeType : String
deriving DecidableEq

/-- One call actually issued to the remote generative service: the model
name, the text document, and the image attachments. -/
structure GenRequest where
  model : String
  prompt : String
  images : List ImagePart
deriving DecidableEq

/-- The JSON body the handler answers with; absent fields are `none`.
The `timestamp` field of the success body is wall-clock time and is not
modelled. -/
structure Response where
  status : Nat
  error : Option String
  message : Option String
  details : Option String
  retryAfter : Option Nat
  upgradeInfo : Option String
  analysis : Option String
  name : Option String
  filesUploaded : Option Nat
  filesAnalyzed : Option Nat
deriving DecidableEq

/-- A response carrying only a status and an `error` string, as the
validation and generic-failure paths produce. -/
def errorResponse (status : Nat) (error : String) : Response :=
  ⟨status, some error, none, none, none, none, none, none, none, none⟩

/-- The catch block of the handler: translate the error thrown out of the
retry loop into the 503 / 429 / 500 response bodies. -/
def translateError (e : RemoteError) : Response :=
  if e.status = 503 then
    { status := 503
      error := some "AI service temporarily unavailable"
      message := some "The Gemini API is currently experiencing high demand. Please try again in 1-2 minutes."
      details := some e.message
      retryAfter := some 120
      upgradeInfo := none, analysis := none, name := none
      filesUploaded := none, filesAnalyzed := none }
  else if e.status = 429 then
    let retryAfter :=
      match e.retryDelaySecs with
      | some seconds => seconds
      | none => 300
    { status := 429
      error := some "Rate limit exceeded"
      message := some (if e.isDailyQuota then
          "You have exceeded your daily quota. Please try again tomorrow or upgrade your plan for higher limits."
        else
          "Rate limit exceeded. Please wait " ++ toString ((retryAfter + 59) / 60) ++ " minutes before trying again.")
      details := some "Free tier has limited requests. Consider upgrading to a paid plan for higher limits."
      retryAfter := some retryAfter
      upgradeInfo := some "Visit https://ai.google.dev/pricing to see paid tier options with higher rate limits."
      analysis := none, name := none, filesUploaded := none, filesAnalyzed := none }
  else
    { status := 500
      error := some "Failed to analyze medical data"
      details := some e.message
      message := none, retryAfter := none, upgradeInfo := none
      analysis := none, name := none, filesUploaded := none, filesAnalyzed := none }

/-- The parsed incoming request: HTTP method, the `data` form field
(`none` when `JSON.parse` throws on it), and the `files.files` array
(empty when the field is missing). -/
structure Request where
  method : String
  dataField : Option FormData
  files : List UploadedFile
deriving DecidableEq

/-- What the handler run produced: the response, the remote calls issued
(in order), and the uploaded files' temporary paths still on disk at the
moment the response is produced. -/
structure HandlerOutcome where
  response : Response
  remoteCalls : List GenRequest
  fsRemaining : List String
deriving DecidableEq

/-- `processedFiles.filter(f => f.isImage)` from the source. -/
def imageFilesOf (processed : List ProcessedFile) : List ProcessedFile :=
  processed.filter (fun f => f.isImage)

/-- The text document the handler sends for a given parsed submission:
the composed prompt over the request's processed files and accumulated
extracted text, with the image banner exactly when any processed file is
an image. -/
def handlerPrompt (d : FormData) (pi : PatientInfo) (files : List UploadedFile) : String :=
  fullPrompt pi d.medicalData d.location (processFiles files).1 (processFiles files).2
    ((imageFilesOf (processFiles files).1).length > 0)

/-- The `imageParts` array: one inline-data attachment per image
ProcessedFile, in order. -/
def handlerImageParts (files : List UploadedFile) : List ImagePart :=
  (imageFilesOf (processFiles files).1).map (fun f => ImagePart.mk (f.data.getD "") f.type)

/-- The post-validation part of the handler: process the files, compose
the prompt, run the retry loop, and translate the outcome.  The `none`
retry result (loop fell through, impossible at `maxRetries = 3`) is the
source's `result.response` TypeError reaching the generic catch.  Only
the success branch deletes the temporary files. -/
def handlerCore (d : FormData) (pi : PatientInfo) (files : List UploadedFile)
    (outcomes : Nat → AttemptOutcome) : HandlerOutcome :=
  let run := retryWithBackoff outcomes 3 5000
  let calls := run.2.map (fun r =>
    GenRequest.mk (getModel r.useFlashModel) (handlerPrompt d pi files) (handlerImageParts files))
  match run.1 with
  | some (Except.ok analysis) =>
      ⟨{ status := 200, analysis := some analysis, name := some pi.name
         filesUploaded := some (processFiles files).1.length
         filesAnalyzed := some (imageFilesOf (processFiles files).1).length
         error := none, message := none, details := none, retryAfter := none, upgradeInfo := none },
       calls, []⟩
  | some (Except.error e) => ⟨translateError e, calls, files.map (fun f => f.filepath)⟩
  | none => ⟨errorResponse 500 "Failed to analyze medical data", calls, files.map (fun f => f.filepath)⟩

/-- The exported `handler`: method check, `data` JSON parse, the two
validation checks in source order (files first, then patient name — a
falsy name, i.e. the empty string, is rejected), then `handlerCore`.
Validation failures answer before any cleanup runs, so the temporary
paths persist on those paths. -/
def handler (req : Request) (outcomes : Nat → AttemptOutcome) : HandlerOutcome :=
  if req.method ≠ "POST" then
    ⟨errorResponse 405 "Method not allowed", [], []⟩
  else
    let tempPaths := req.files.map (fun f => f.filepath)
    match req.dataField with
    | none => ⟨errorResponse 400 "Invalid form data format", [], tempPaths⟩
    | some d =>
      if req.files.length = 0 then
        ⟨errorResponse 400 "At least one medical report file is required", [], tempPaths⟩
      else
        match d.patientInfo with
        | none => ⟨errorResponse 400 "Patient information is required", [], tempPaths⟩
        | some pi =>
          if pi.name = "" then
            ⟨errorResponse 400 "Patient information is required", [], tempPaths⟩
          else
            handlerCore d pi req.files outcomes

/-- Naive infix search on character lists, used to state whether one
string occurs inside another. -/
def listHasSub (pat : List Char) : List Char → Bool
  | [] => pat.isEmpty
  | c :: rest => pat.isPrefixOf (c :: rest) || listHasSub pat rest

/-- Whether `pat` occurs as a contiguous substring of `hay`. -/
def strContainsSub (hay pat : String) : Bool :=
  listHasSub pat.data hay.data

/-! ### Supporting lemmas -/

/-- The processed-file list is the upload list run through `processFile`
in original order, keeping the successful entries. -/
theorem processFiles_fst_eq_filterMap (files : List UploadedFile) :
    (processFiles files).1 = files.filterMap (fun f => (processFile f).1) := by
  induction files with
  | nil => rfl
  | cons f rest ih =>
    simp only [processFiles, List.filterMap_cons]
    cases h : (processFile f).1 <;> simp [h, ih]

/-- Every record of the retry trace carries the `useFlashModel` value the
loop was entered with. -/
theorem retryAux_useFlash (outcomes : Nat → AttemptOutcome) (mR bD : Nat) (u : Bool) :
    ∀ (fuel attempt : Nat) (r : AttemptRecord),
      r ∈ (retryAux outcomes mR bD u fuel attempt).2 → r.useFlashModel = u := by
  intro fuel
  induction fuel with
  | zero => intro att r h; simp [retryAux] at h
  | succ n ih =>
    intro att r h
    rw [retryAux] at h
    cases ho : outcomes att with
    | ok text =>
      simp only [ho] at h
      simp at h
      rw [h]
    | err e =>
      simp only [ho] at h
      by_cases h429 : e.status = 429 ∧ att < mR - 1
      · rw [if_pos h429] at h
        simp at h
        rcases h with h | h
        · rw [h]
        · exact ih (att + 1) r h
      · rw [if_neg h429] at h
        by_cases h5xx : (e.status = 503 ∨ 500 ≤ e.status) ∧ att < mR - 1
        · rw [if_pos h5xx] at h
          simp at h
          rcases h with h | h
          · rw [h]
          · exact ih (att + 1) r h
        · rw [if_neg h5xx] at h
          simp at h
          rw [h]

/-- A retry trace record of a 429 attempt that has attempts remaining
carries the rate-limit wait for its attempt index. -/
theorem retryAux_wait_429 (outcomes : Nat → AttemptOutcome) (mR bD : Nat) (u : Bool) :
    ∀ (fuel attempt : Nat) (r : AttemptRecord),
      r ∈ (retryAux outcomes mR bD u fuel attempt).2 →
      ∀ e : RemoteError, outcomes r.attemptIndex = AttemptOutcome.err e →
        e.status = 429 → r.attemptIndex < mR - 1 →
        r.waitAfterMs = some (rateLimitWait e bD r.attemptIndex) := by
  intro fuel
  induction fuel with
  | zero => intro att r h; simp [retryAux] at h
  | succ n ih =>
    intro att r h e he h429 hlt
    rw [retryAux] at h
    cases ho : outcomes att with
    | ok text =>
      simp only [ho] at h
      simp at h
      subst h
      simp [ho] at he
    | err e0 =>
      simp only [ho] at h
      by_cases hc : e0.status = 429 ∧ att < mR - 1
      · rw [if_pos hc] at h
        simp at h
        rcases h with h | h
        · subst h
          simp [ho] at he
          subst he
          rfl
        · exact ih (att + 1) r h e he h429 hlt
      · rw [if_neg hc] at h
        by_cases hc2 : (e0.status = 503 ∨ 500 ≤ e0.status) ∧ att < mR - 1
        · rw [if_pos hc2] at h
          simp at h
          rcases h with h | h
          · subst h
            simp [ho] at he
            subst he
            simp at hlt
            exact absurd ⟨h429, hlt⟩ hc
          · exact ih (att + 1) r h e he h429 hlt
        · rw [if_neg hc2] at h
          simp at h
          subst h
          simp [ho] at he
          subst he
          simp at hlt
          exact absurd ⟨h429, hlt⟩ hc

/-- With at least one iteration to run, the retry loop records at least
one attempt. -/
theorem retryAux_trace_ne_nil (outcomes : Nat → AttemptOutcome) (mR bD : Nat) (u : Bool)
    (fuel attempt : Nat) (hf : fuel ≠ 0) :
    (retryAux outcomes mR bD u fuel attempt).2 ≠ [] := by
  cases fuel with
  | zero => exact absurd rfl hf
  | succ n =>
    rw [retryAux]
    split
    · simp
    · split_ifs <;> simp

/-- The calls `handlerCore` issues: one per trace record, each carrying
the composed prompt and the image attachments. -/
theorem handlerCore_remoteCalls (d : FormData) (pi : PatientInfo)
    (files : List UploadedFile) (outcomes : Nat → AttemptOutcome) :
    (handlerCore d pi files outcomes).remoteCalls
      = (retryWithBackoff outcomes 3 5000).2.map (fun r =>
          GenRequest.mk (getModel r.useFlashModel) (handlerPrompt d pi files)
            (handlerImageParts files)) := by
  cases h : (retryWithBackoff outcomes 3 5000).1 with
  | none => simp [handlerCore, h]
  | some v => cases v <;> simp [handlerCore, h]

/-- A valid submission reaches `handlerCore`. -/
theorem handler_eq_core (req : Request) (outcomes : Nat → AttemptOutcome)
    (d : FormData) (pi : PatientInfo)
    (hm : req.method = "POST") (hd : req.dataField = some d)
    (hpi : d.patientInfo = some pi) (hname : pi.name ≠ "")
    (hfiles : req.files.length ≠ 0) :
    handler req outcomes = handlerCore d pi req.files outcomes := by
  simp [handler, hm, hd, hpi, hname, hfiles]

/-- Every remote call the handler issues uses the flash tier and carries
the request-determined prompt and attachments. -/
theorem handler_call_shape (req : Request) (outcomes : Nat → AttemptOutcome)
    (c : GenRequest) (hc : c ∈ (handler req outcomes).remoteCalls) :
    ∃ d pi, req.dataField = some d ∧ d.patientInfo = some pi ∧
      c = GenRequest.mk (getModel true) (handlerPrompt d pi req.files)
            (handlerImageParts req.files) := by
  by_cases hm : req.method = "POST"
  · cases hd : req.dataField with
    | none => simp [handler, hm, hd] at hc
    | some d =>
      by_cases hf : req.files.length = 0
      · simp [handler, hm, hd, hf] at hc
      · cases hpi : d.patientInfo with
        | none => simp [handler, hm, hd, hf, hpi] at hc
        | some pi =>
          by_cases hn : pi.name = ""
          · simp [handler, hm, hd, hf, hpi, hn] at hc
          · rw [handler_eq_core req outcomes d pi hm hd hpi hn hf,
              handlerCore_remoteCalls] at hc
            rcases List.mem_map.mp hc with ⟨r, hr, hcall⟩
            refine ⟨d, pi, rfl, hpi, ?_⟩
            rw [← hcall, retryAux_useFlash outcomes 3 5000 true 3 0 r hr]
  · simp [handler, hm] at hc

/-- The status the catch block answers with is one of 503, 429, 500. -/
theorem translateError_status (e : RemoteError) :
    (translateError e).status = 503 ∨ (translateError e).status = 429 ∨
      (translateError e).status = 500 := by
  unfold translateError
  split_ifs <;> simp

/-- The default-valued head of a nonempty list is one of its elements. -/
theorem headD_mem {α : Type} (l : List α) (d : α) (h : l ≠ []) : l.headD d ∈ l := by
  cases l with
  | nil => exact absurd rfl h
  | cons x xs => exact List.mem_cons_self x xs

/-- Dropping an element strictly shrinks a `filterMap` image. -/
theorem length_filterMap_lt_of_none {α β : Type} (g : α → Option β) :
    ∀ (l : List α) (a : α), a ∈ l → g a = none →
      (l.filterMap g).length < l.length := by
  intro l
  induction l with
  | nil => intro a ha; cases ha
  | cons x xs ih =>
    intro a ha hg
    rcases List.mem_cons.mp ha with rfl | ha
    · rw [List.filterMap_cons, hg]
      exact Nat.lt_succ_of_le (List.length_filterMap_le g xs)
    · rw [List.filterMap_cons]
      cases hx : g x with
      | none => exact Nat.lt_succ_of_lt (ih a ha hg)
      | some b => simpa using Nat.succ_lt_succ (ih a ha hg)

/-! ### Shared concrete inputs for witnesses and counterexamples -/

/-- A remote service that answers every attempt successfully. -/
def okOutcomes : Nat → AttemptOutcome := fun _ => AttemptOutcome.ok "ANALYSIS"

/-! ### Claims -/

/-- C1, amended: temporary storage paths are removed before the response
only on the success path; on every other response produced after the
multipart parse (the 400 validation answers and the 503/429/500 failure
answers) the uploaded files' storage paths are all still present.  Only
the 405 wrong-method answer, produced before any file exists, has no
paths outstanding. -/
theorem cleanup_only_on_success (req : Request) (outcomes : Nat → AttemptOutcome) :
    ((handler req outcomes).response.status = 200 → (handler req outcomes).fsRemaining = []) ∧
    ((handler req outcomes).response.status ≠ 200 → (handler req outcomes).response.status ≠ 405 →
      (handler req outcomes).fsRemaining = req.files.map (fun f => f.filepath)) := by
  by_cases hm : req.method = "POST"
  case neg =>
    have h : handler req outcomes = ⟨errorResponse 405 "Method not allowed", [], []⟩ := by
      simp [handler, hm]
    rw [h]
    simp [errorResponse]
  case pos =>
    cases hd : req.dataField with
    | none =>
      have h : handler req outcomes
          = ⟨errorResponse 400 "Invalid form data format", [], req.files.map (fun f => f.filepath)⟩ := by
        simp [handler, hm, hd]
      rw [h]
      simp [errorResponse]
    | some d =>
      by_cases hf : req.files.length = 0
      · have h : handler req outcomes
            = ⟨errorResponse 400 "At least one medical report file is required", [],
               req.files.map (fun f => f.filepath)⟩ := by
          simp [handler, hm, hd, hf]
        rw [h]
        simp [errorResponse]
      · cases hpi : d.patientInfo with
        | none =>
          have h : handler req outcomes
              = ⟨errorResponse 400 "Patient information is required", [],
                 req.files.map (fun f => f.filepath)⟩ := by
            simp [handler, hm, hd, hf, hpi]
          rw [h]
          simp [errorResponse]
        | some pi =>
          by_cases hn : pi.name = ""
          · have h : handler req outcomes
                = ⟨errorResponse 400 "Patient information is required", [],
                   req.files.map (fun f => f.filepath)⟩ := by
              simp [handler, hm, hd, hf, hpi, hn]
            rw [h]
            simp [errorResponse]
          · rw [handler_eq_core req outcomes d pi hm hd hpi hn hf]
            cases hr : (retryWithBackoff outcomes 3 5000).1 with
            | none =>
              have hst : (handlerCore d pi req.files outcomes).response
                  = errorResponse 500 "Failed to analyze medical data" := by
                simp [handlerCore, hr]
              have hfs : (handlerCore d pi req.files outcomes).fsRemaining
                  = req.files.map (fun f => f.filepath) := by
                simp [handlerCore, hr]
              rw [hst, hfs]
              simp [errorResponse]
            | some v =>
              cases v with
              | ok a =>
                have hst : (handlerCore d pi req.files outcomes).response.status = 200 := by
                  simp [handlerCore, hr]
                have hfs : (handlerCore d pi req.files outcomes).fsRemaining = [] := by
                  simp [handlerCore, hr]
                rw [hfs]
                exact ⟨fun _ => rfl, fun hne _ => absurd hst hne⟩
              | error e =>
                have hst : (handlerCore d pi req.files outcomes).response = translateError e := by
                  simp [handlerCore, hr]
                have hfs : (handlerCore d pi req.files outcomes).fsRemaining
                    = req.files.map (fun f => f.filepath) := by
                  simp [handlerCore, hr]
                rw [hst, hfs]
                refine ⟨fun h200 => ?_, fun _ _ => rfl⟩
                rcases translateError_status e with h' | h' | h' <;> omega

/-- Witness for C1's theorem: a successful run has no temporary path
left at response time. -/
theorem cleanup_only_on_success_witness :
    (handler ⟨"POST", some ⟨none, some ⟨"Alice", none, none, none, none⟩, none⟩,
        [⟨"doc.txt", "/tmp/doc1", ⟨none, none, some "hello"⟩⟩]⟩ okOutcomes).fsRemaining = [] :=
  (cleanup_only_on_success _ _).1 (by decide)

/-- Counterexample to C1 as stated: a run whose remote call fails with a
non-retryable outcome produces its 500 response while the uploaded
file's temporary path is still present. -/
theorem cleanup_missing_on_failure_counterexample :
    (handler ⟨"POST", some ⟨none, some ⟨"Bob", none, none, none, none⟩, none⟩,
        [⟨"a.txt", "/tmp/u1", ⟨none, none, some "x"⟩⟩]⟩
      (fun _ => AttemptOutcome.err ⟨500, none, false, "boom"⟩)).response.status = 500 ∧
    "/tmp/u1" ∈ (handler ⟨"POST", some ⟨none, some ⟨"Bob", none, none, none, none⟩, none⟩,
        [⟨"a.txt", "/tmp/u1", ⟨none, none, some "x"⟩⟩]⟩
      (fun _ => AttemptOutcome.err ⟨500, none, false, "boom"⟩)).fsRemaining := by
  decide

/-- C2, amended: a Submission whose patientInfo.name is the empty string
is answered with status 400 and the remote service is not invoked;
a whitespace-only name, being truthy, is not rejected by this check. -/
theorem empty_name_rejected (req : Request) (outcomes : Nat → AttemptOutcome)
    (d : FormData) (pi : PatientInfo)
    (hm : req.method = "POST") (hd : req.dataField = some d)
    (hpi : d.patientInfo = some pi) (hname : pi.name = "") :
    (handler req outcomes).response.status = 400 ∧ (handler req outcomes).remoteCalls = [] := by
  by_cases hf : req.files.length = 0
  · simp [handler, hm, hd, hf, errorResponse]
  · simp [handler, hm, hd, hf, hpi, hname, errorResponse]

/-- Witness for C2's theorem at a concrete empty-name submission. -/
theorem empty_name_rejected_witness :
    (handler ⟨"POST", some ⟨none, some ⟨"", none, none, none, none⟩, none⟩,
        [⟨"a.txt", "/tmp/e1", ⟨none, none, some "x"⟩⟩]⟩ okOutcomes).response.status = 400 ∧
    (handler ⟨"POST", some ⟨none, some ⟨"", none, none, none, none⟩, none⟩,
        [⟨"a.txt", "/tmp/e1", ⟨none, none, some "x"⟩⟩]⟩ okOutcomes).remoteCalls = [] :=
  empty_name_rejected _ _ _ _ rfl rfl rfl rfl

/-- Counterexample to C2 as stated: a whitespace-only patient name (" ")
passes the falsy check, the request succeeds with status 200, and the
remote service is invoked once. -/
theorem whitespace_name_not_rejected_counterexample :
    (handler ⟨"POST", some ⟨none, some ⟨" ", none, none, none, none⟩, none⟩,
        [⟨"a.txt", "/tmp/w1", ⟨none, none, some "x"⟩⟩]⟩ okOutcomes).response.status = 200 ∧
    (handler ⟨"POST", some ⟨none, some ⟨" ", none, none, none, none⟩, none⟩,
        [⟨"a.txt", "/tmp/w1", ⟨none, none, some "x"⟩⟩]⟩ okOutcomes).remoteCalls.length = 1 := by
  decide

/-- A two-file submission whose PDF fails extraction while the plain-text
file succeeds. -/
def c3Req : Request :=
  ⟨"POST", some ⟨none, some ⟨"Cara", none, none, none, none⟩, none⟩,
   [⟨"scan.pdf", "/tmp/p1", ⟨none, none, none⟩⟩,
    ⟨"notes.txt", "/tmp/p2", ⟨none, none, some "patient stable"⟩⟩]⟩

/-- C3, amended: with a failing PDF among the uploads, the request still
proceeds to remote invocation and the failed file's ProcessedFile entry
carries the placeholder text "Could not extract text from PDF" in its
textContent; the placeholder is recorded there, not inserted into the
composed prompt document (which lists only the file's name and type). -/
theorem pdf_failure_placeholder_recorded (req : Request) (outcomes : Nat → AttemptOutcome)
    (d : FormData) (pi : PatientInfo) (f : UploadedFile)
    (hm : req.method = "POST") (hd : req.dataField = some d)
    (hpi : d.patientInfo = some pi) (hname : pi.name ≠ "")
    (hf : f ∈ req.files)
    (hmime : getMimeType f.originalFilename = "application/pdf")
    (hfail : f.fsEnv.pdfText = none)
    (hN : 2 ≤ req.files.length) :
    (handler req outcomes).remoteCalls ≠ [] ∧
    (⟨f.originalFilename, "application/pdf", none, some pdfPlaceholder, false, true, false⟩ :
        ProcessedFile) ∈ (processFiles req.files).1 := by
  have hflen : req.files.length ≠ 0 := by omega
  constructor
  · rw [handler_eq_core req outcomes d pi hm hd hpi hname hflen, handlerCore_remoteCalls,
      Ne, List.map_eq_nil_iff]
    exact retryAux_trace_ne_nil outcomes 3 5000 true 3 0 (by decide)
  · rw [processFiles_fst_eq_filterMap]
    refine List.mem_filterMap.mpr ⟨f, hf, ?_⟩
    have himg : strStartsWith "application/pdf" "image/" = false := by decide
    simp [processFile, himg, hmime, hfail]

/-- Witness for C3's theorem at the concrete two-file submission. -/
theorem pdf_failure_placeholder_recorded_witness :
    (handler c3Req okOutcomes).remoteCalls ≠ [] ∧
    (⟨"scan.pdf", "application/pdf", none, some pdfPlaceholder, false, true, false⟩ :
        ProcessedFile) ∈ (processFiles c3Req.files).1 :=
  pdf_failure_placeholder_recorded c3Req okOutcomes
    ⟨none, some ⟨"Cara", none, none, none, none⟩, none⟩ ⟨"Cara", none, none, none, none⟩
    ⟨"scan.pdf", "/tmp/p1", ⟨none, none, none⟩⟩ rfl rfl rfl (by decide)
    (by decide) (by decide) rfl (by decide)

set_option maxRecDepth 1000000 in
/-- Counterexample to C3 as stated: in the same scenario the composed
prompt document sent to the remote service does not contain the
placeholder text "Could not extract text from PDF" anywhere, although it
does contain the successfully extracted text of the other file. -/
theorem pdf_placeholder_not_in_prompt_counterexample :
    (handler c3Req okOutcomes).remoteCalls.length = 1 ∧
    strContainsSub ((handler c3Req okOutcomes).remoteCalls.headD ⟨"", "", []⟩).prompt
      pdfPlaceholder = false ∧
    strContainsSub ((handler c3Req okOutcomes).remoteCalls.headD ⟨"", "", []⟩).prompt
      "patient stable" = true := by
  decide

/-- C4, amended: when every attempt up to the retry ceiling fails with
429, the handler answers status 429 and retryAfter equal to the
service-provided retry delay (in seconds) of the final attempt's error,
defaulting to 300 seconds when the service provides no delay; the
computed exponential backoff plays no part in the reported value. -/
theorem rate_limited_retry_after (req : Request) (outcomes : Nat → AttemptOutcome)
    (d : FormData) (pi : PatientInfo) (e0 e1 e2 : RemoteError)
    (hm : req.method = "POST") (hd : req.dataField = some d)
    (hpi : d.patientInfo = some pi) (hname : pi.name ≠ "")
    (hflen : req.files.length ≠ 0)
    (h0 : outcomes 0 = AttemptOutcome.err e0) (h1 : outcomes 1 = AttemptOutcome.err e1)
    (h2 : outcomes 2 = AttemptOutcome.err e2)
    (s0 : e0.status = 429) (s1 : e1.status = 429) (s2 : e2.status = 429) :
    (handler req outcomes).response.status = 429 ∧
    (handler req outcomes).response.retryAfter = some (e2.retryDelaySecs.getD 300) := by
  rw [handler_eq_core req outcomes d pi hm hd hpi hname hflen]
  have hrun : (retryWithBackoff outcomes 3 5000).1 = some (Except.error e2) := by
    simp [retryWithBackoff, retryAux, h0, h1, h2, s0, s1, s2]
  have hst : (handlerCore d pi req.files outcomes).response = translateError e2 := by
    simp [handlerCore, hrun]
  rw [hst]
  have h503 : ¬ e2.status = 503 := by omega
  constructor
  · simp [translateError, h503, s2]
  · cases hdelay : e2.retryDelaySecs <;> simp [translateError, h503, s2, hdelay]

/-- Witness for C4's theorem: all three attempts 429 with a 31-second
RetryInfo delay yields retryAfter 31. -/
theorem rate_limited_retry_after_witness :
    (handler ⟨"POST", some ⟨none, some ⟨"Dan", none, none, none, none⟩, none⟩,
        [⟨"a.txt", "/tmp/c4w", ⟨none, none, some "x"⟩⟩]⟩
      (fun _ => AttemptOutcome.err ⟨429, some 31, false, "rl"⟩)).response.status = 429 ∧
    (handler ⟨"POST", some ⟨none, some ⟨"Dan", none, none, none, none⟩, none⟩,
        [⟨"a.txt", "/tmp/c4w", ⟨none, none, some "x"⟩⟩]⟩
      (fun _ => AttemptOutcome.err ⟨429, some 31, false, "rl"⟩)).response.retryAfter
      = some ((some (31 : Nat)).getD 300) :=
  rate_limited_retry_after _ _ _ _ ⟨429, some 31, false, "rl"⟩ ⟨429, some 31, false, "rl"⟩
    ⟨429, some 31, false, "rl"⟩ rfl rfl rfl (by decide) (by decide) rfl rfl rfl rfl rfl rfl

/-- Counterexample to C4 as stated: with a 1-second service delay and
base delay 5000 ms, the claim's value max(1, 5000·2²/1000) = 20 seconds,
but the handler reports retryAfter = 1: the exponential backoff is not
taken into account. -/
theorem retry_after_ignores_backoff_counterexample :
    (handler ⟨"POST", some ⟨none, some ⟨"Dee", none, none, none, none⟩, none⟩,
        [⟨"a.txt", "/tmp/c4c", ⟨none, none, some "x"⟩⟩]⟩
      (fun _ => AttemptOutcome.err ⟨429, some 1, false, "rl"⟩)).response.retryAfter = some 1 ∧
    max 1 (5000 * 2 ^ 2 / 1000) = 20 ∧ (1 : Nat) ≠ 20 := by
  decide

/-- C5, confirmed: a 429 failure at attempt index i with attempts left
waits max(s·1000, baseDelay·2^i) ms when the service suggests s seconds,
and baseDelay·2^i ms when it suggests none. -/
theorem backoff_wait_formula (outcomes : Nat → AttemptOutcome) (maxRetries baseDelay i : Nat)
    (r : AttemptRecord) (hr : r ∈ (retryWithBackoff outcomes maxRetries baseDelay).2)
    (hi : r.attemptIndex = i) (e : RemoteError)
    (he : outcomes i = AttemptOutcome.err e)
    (h429 : e.status = 429) (hlt : i < maxRetries - 1) :
    r.waitAfterMs = some (match e.retryDelaySecs with
      | some s => max (s * 1000) (baseDelay * 2 ^ i)
      | none => baseDelay * 2 ^ i) := by
  subst hi
  have h := retryAux_wait_429 outcomes maxRetries baseDelay true maxRetries 0 r hr e he h429 hlt
  rw [h]
  cases hdelay : e.retryDelaySecs <;> simp [rateLimitWait, hdelay]

/-- Witness for C5's theorem: a 31-second suggestion at attempt 0 with
base delay 1000 gives the wait max(31000, 1000) = 31000 ms. -/
theorem backoff_wait_formula_witness :
    (⟨0, true, some 31000⟩ : AttemptRecord)
      ∈ (retryWithBackoff (fun _ => AttemptOutcome.err ⟨429, some 31, false, "rl"⟩) 3 1000).2 ∧
    (⟨0, true, some 31000⟩ : AttemptRecord).waitAfterMs
      = some (max (31 * 1000) (1000 * 2 ^ 0)) := by
  refine ⟨by decide, ?_⟩
  exact backoff_wait_formula (fun _ => AttemptOutcome.err ⟨429, some 31, false, "rl"⟩) 3 1000 0
    ⟨0, true, some 31000⟩ (by decide) rfl ⟨429, some 31, false, "rl"⟩ rfl rfl (by decide)

/-- A submission pairing a readable image with an unreadable
unrecognized-extension file. -/
def c6Req : Request :=
  ⟨"POST", some ⟨none, some ⟨"Eve", none, none, none, none⟩, none⟩,
   [⟨"scan.png", "/tmp/c6a", ⟨some "QUJD", none, none⟩⟩,
    ⟨"bad.bin", "/tmp/c6b", ⟨none, none, none⟩⟩]⟩

/-- C6, amended: an uploaded file that is neither image nor PDF and whose
UTF-8 read fails is silently dropped from extraction and produces no
ProcessedFile entry, so it is not counted in the success response's
filesUploaded field: that field reports the processed-file count, which
is strictly smaller than the original upload count. -/
theorem unreadable_file_dropped_uncounted (req : Request) (outcomes : Nat → AttemptOutcome)
    (d : FormData) (pi : PatientInfo) (f : UploadedFile) (a : String)
    (hm : req.method = "POST") (hd : req.dataField = some d)
    (hpi : d.patientInfo = some pi) (hname : pi.name ≠ "")
    (hflen : req.files.length ≠ 0)
    (hf : f ∈ req.files)
    (himg : strStartsWith (getMimeType f.originalFilename) "image/" = false)
    (hpdf : getMimeType f.originalFilename ≠ "application/pdf")
    (hfail : f.fsEnv.utf8Text = none)
    (ho : outcomes 0 = AttemptOutcome.ok a) :
    (processFile f).1 = none ∧
    (handler req outcomes).response.filesUploaded = some ((processFiles req.files).1.length) ∧
    (processFiles req.files).1.length < req.files.length := by
  have hnone : (processFile f).1 = none := by
    simp [processFile, himg, hpdf, hfail]
  refine ⟨hnone, ?_, ?_⟩
  · rw [handler_eq_core req outcomes d pi hm hd hpi hname hflen]
    have hrun : (retryWithBackoff outcomes 3 5000).1 = some (Except.ok a) := by
      simp [retryWithBackoff, retryAux, ho]
    simp [handlerCore, hrun]
  · rw [processFiles_fst_eq_filterMap]
    exact length_filterMap_lt_of_none _ req.files f hf hnone

/-- Witness for C6's theorem at the concrete image-plus-unreadable pair. -/
theorem unreadable_file_dropped_uncounted_witness :
    (processFile ⟨"bad.bin", "/tmp/c6b", ⟨none, none, none⟩⟩).1 = none ∧
    (handler c6Req okOutcomes).response.filesUploaded
      = some ((processFiles c6Req.files).1.length) ∧
    (processFiles c6Req.files).1.length < c6Req.files.length :=
  unreadable_file_dropped_uncounted c6Req okOutcomes
    ⟨none, some ⟨"Eve", none, none, none, none⟩, none⟩ ⟨"Eve", none, none, none, none⟩
    ⟨"bad.bin", "/tmp/c6b", ⟨none, none, none⟩⟩ "ANALYSIS" rfl rfl rfl (by decide)
    (by decide) (by decide) (by decide) (by decide) rfl rfl

/-- Counterexample to C6 as stated: two files are uploaded, one is
dropped, and the success response's filesUploaded field reports 1, not
the original upload count 2. -/
theorem dropped_file_not_counted_counterexample :
    (handler c6Req okOutcomes).response.filesUploaded = some 1 ∧
    c6Req.files.length = 2 := by
  decide

/-- C7, confirmed: the composed prompt document is a function of the
submission alone — any two calls issued by two runs of the handler on the
same request carry byte-identical prompt text, whatever the remote
service does — and the processed files underlying it are the uploads in
original order, filtered through per-file processing. -/
theorem composed_prompt_deterministic (req : Request) (o₁ o₂ : Nat → AttemptOutcome)
    (c₁ c₂ : GenRequest) (h₁ : c₁ ∈ (handler req o₁).remoteCalls)
    (h₂ : c₂ ∈ (handler req o₂).remoteCalls) :
    c₁.prompt = c₂.prompt ∧
    (processFiles req.files).1 = req.files.filterMap (fun f => (processFile f).1) := by
  rcases handler_call_shape req o₁ c₁ h₁ with ⟨d1, pi1, hd1, hpi1, hc1⟩
  rcases handler_call_shape req o₂ c₂ h₂ with ⟨d2, pi2, hd2, hpi2, hc2⟩
  rw [hd1] at hd2
  injection hd2 with hdd
  subst hdd
  rw [hpi1] at hpi2
  injection hpi2 with hpp
  subst hpp
  rw [hc1, hc2]
  exact ⟨rfl, processFiles_fst_eq_filterMap req.files⟩

/-- A submission used to witness prompt determinism across two runs. -/
def c7Req : Request :=
  ⟨"POST", some ⟨some ["Blood Test"], some ⟨"Fay", some "41", none, some "cough", some "high"⟩,
      some ⟨some "Lyon", some "France"⟩⟩,
   [⟨"scan.png", "/tmp/c7a", ⟨some "QUJD", none, none⟩⟩,
    ⟨"notes.txt", "/tmp/c7b", ⟨none, none, some "fever noted"⟩⟩]⟩

/-- Witness for C7's theorem: the single call of a successful run and the
first call of an all-503 run carry the same prompt text. -/
theorem composed_prompt_deterministic_witness :
    ((handler c7Req okOutcomes).remoteCalls.headD ⟨"", "", []⟩).prompt
      = ((handler c7Req (fun _ => AttemptOutcome.err ⟨503, none, false, "down"⟩)).remoteCalls.headD
          ⟨"", "", []⟩).prompt ∧
    (processFiles c7Req.files).1 = c7Req.files.filterMap (fun f => (processFile f).1) :=
  composed_prompt_deterministic c7Req okOutcomes
    (fun _ => AttemptOutcome.err ⟨503, none, false, "down"⟩) _ _
    (headD_mem _ _ (by decide)) (headD_mem _ _ (by decide))

/-- C8, confirmed: one image file and one PDF file that both process
successfully yield exactly one remote call carrying the composed prompt
and exactly one image attachment, and the success response's
filesAnalyzed equals 1. -/
theorem image_and_pdf_single_attachment (req : Request) (outcomes : Nat → AttemptOutcome)
    (d : FormData) (pi : PatientInfo) (fimg fpdf : UploadedFile) (b t a : String)
    (hm : req.method = "POST") (hd : req.dataField = some d)
    (hpi : d.patientInfo = some pi) (hname : pi.name ≠ "")
    (horder : req.files = [fimg, fpdf] ∨ req.files = [fpdf, fimg])
    (himg : strStartsWith (getMimeType fimg.originalFilename) "image/" = true)
    (hb : fimg.fsEnv.readBase64 = some b)
    (hpdf : getMimeType fpdf.originalFilename = "application/pdf")
    (ht : fpdf.fsEnv.pdfText = some t)
    (ho : outcomes 0 = AttemptOutcome.ok a) :
    (handler req outcomes).remoteCalls
      = [GenRequest.mk "gemini-1.5-flash" (handlerPrompt d pi req.files)
          [ImagePart.mk b (getMimeType fimg.originalFilename)]] ∧
    (handler req outcomes).response.status = 200 ∧
    (handler req outcomes).response.filesAnalyzed = some 1 := by
  have hflen : req.files.length ≠ 0 := by rcases horder with h | h <;> simp [h]
  rw [handler_eq_core req outcomes d pi hm hd hpi hname hflen]
  have hpdfimg : strStartsWith "application/pdf" "image/" = false := by decide
  have hproc : imageFilesOf (processFiles req.files).1
      = [⟨fimg.originalFilename, getMimeType fimg.originalFilename, some b, none,
          true, false, false⟩] := by
    rcases horder with h | h <;> rw [h] <;>
      simp [processFiles, processFile, imageFilesOf, himg, hb, hpdf, hpdfimg, ht]
  have hrun1 : (retryWithBackoff outcomes 3 5000).1 = some (Except.ok a) := by
    simp [retryWithBackoff, retryAux, ho]
  have hrun2 : (retryWithBackoff outcomes 3 5000).2 = [⟨0, true, none⟩] := by
    simp [retryWithBackoff, retryAux, ho]
  refine ⟨?_, ?_, ?_⟩
  · rw [handlerCore_remoteCalls, hrun2]
    simp [handlerImageParts, hproc, getModel]
  · simp [handlerCore, hrun1]
  · simp [handlerCore, hrun1, hproc]

/-- Witness for C8's theorem at a concrete image-plus-PDF pair. -/
theorem image_and_pdf_single_attachment_witness :
    (handler ⟨"POST", some ⟨none, some ⟨"Gil", none, none, none, none⟩, none⟩,
        [⟨"scan.png", "/tmp/c8a", ⟨some "QUJD", none, none⟩⟩,
         ⟨"report.pdf", "/tmp/c8b", ⟨none, some "lab text", none⟩⟩]⟩ okOutcomes).remoteCalls
      = [GenRequest.mk "gemini-1.5-flash"
          (handlerPrompt ⟨none, some ⟨"Gil", none, none, none, none⟩, none⟩
            ⟨"Gil", none, none, none, none⟩
            [⟨"scan.png", "/tmp/c8a", ⟨some "QUJD", none, none⟩⟩,
             ⟨"report.pdf", "/tmp/c8b", ⟨none, some "lab text", none⟩⟩])
          [ImagePart.mk "QUJD" (getMimeType "scan.png")]] ∧
    (handler ⟨"POST", some ⟨none, some ⟨"Gil", none, none, none, none⟩, none⟩,
        [⟨"scan.png", "/tmp/c8a", ⟨some "QUJD", none, none⟩⟩,
         ⟨"report.pdf", "/tmp/c8b", ⟨none, some "lab text", none⟩⟩]⟩ okOutcomes).response.status
      = 200 ∧
    (handler ⟨"POST", some ⟨none, some ⟨"Gil", none, none, none, none⟩, none⟩,
        [⟨"scan.png", "/tmp/c8a", ⟨some "QUJD", none, none⟩⟩,
         ⟨"report.pdf", "/tmp/c8b", ⟨none, some "lab text", none⟩⟩]⟩ okOutcomes).response.filesAnalyzed
      = some 1 :=
  image_and_pdf_single_attachment _ okOutcomes
    ⟨none, some ⟨"Gil", none, none, none, none⟩, none⟩ ⟨"Gil", none, none, none, none⟩
    ⟨"scan.png", "/tmp/c8a", ⟨some "QUJD", none, none⟩⟩
    ⟨"report.pdf", "/tmp/c8b", ⟨none, some "lab text", none⟩⟩ "QUJD" "lab text" "ANALYSIS"
    rfl rfl rfl (by decide) (Or.inl rfl) (by decide) rfl (by decide) rfl rfl

/-- C9, confirmed: every remote call any run of the handler issues uses
the fast tier: useFlashModel stays true for every attempt, so the model
is always the one `getModel true` selects ('gemini-1.5-flash'), never
the capable tier ('gemini-1.5-pro') that `getModel false` would select. -/
theorem model_always_flash (req : Request) (outcomes : Nat → AttemptOutcome)
    (c : GenRequest) (hc : c ∈ (handler req outcomes).remoteCalls) :
    c.model = "gemini-1.5-flash" ∧ getModel true = "gemini-1.5-flash" ∧
    getModel false = "gemini-1.5-pro" := by
  rcases handler_call_shape req outcomes c hc with ⟨d, pi, _, _, hcall⟩
  rw [hcall]
  exact ⟨rfl, rfl, rfl⟩

/-- Witness for C9's theorem: the call of a concrete successful run uses
the flash model. -/
theorem model_always_flash_witness :
    ((handler ⟨"POST", some ⟨none, some ⟨"Hal", none, none, none, none⟩, none⟩,
        [⟨"a.txt", "/tmp/c9", ⟨none, none, some "x"⟩⟩]⟩ okOutcomes).remoteCalls.headD
      ⟨"", "", []⟩).model = "gemini-1.5-flash" ∧
    getModel true = "gemini-1.5-flash" ∧ getModel false = "gemini-1.5-pro" :=
  model_always_flash _ okOutcomes _ (headD_mem _ _ (by decide))

/-- C10, confirmed: a valid submission all of whose files fail to read or
process still reaches the remote service (exactly one call on a
first-attempt success), and the success response reports filesUploaded
equal to 0. -/
theorem all_files_failing_still_invokes (req : Request) (outcomes : Nat → AttemptOutcome)
    (d : FormData) (pi : PatientInfo) (a : String)
    (hm : req.method = "POST") (hd : req.dataField = some d)
    (hpi : d.patientInfo = some pi) (hname : pi.name ≠ "")
    (hflen : req.files.length ≠ 0)
    (hall : ∀ f ∈ req.files, (processFile f).1 = none)
    (ho : outcomes 0 = AttemptOutcome.ok a) :
    (handler req outcomes).response.status = 200 ∧
    (handler req outcomes).remoteCalls.length = 1 ∧
    (handler req outcomes).response.filesUploaded = some 0 := by
  rw [handler_eq_core req outcomes d pi hm hd hpi hname hflen]
  have hrun1 : (retryWithBackoff outcomes 3 5000).1 = some (Except.ok a) := by
    simp [retryWithBackoff, retryAux, ho]
  have hrun2 : (retryWithBackoff outcomes 3 5000).2 = [⟨0, true, none⟩] := by
    simp [retryWithBackoff, retryAux, ho]
  have hempty : (processFiles req.files).1 = [] := by
    rw [processFiles_fst_eq_filterMap]
    exact List.filterMap_eq_nil_iff.mpr hall
  refine ⟨?_, ?_, ?_⟩
  · simp [handlerCore, hrun1]
  · rw [handlerCore_remoteCalls, hrun2]
    simp
  · simp [handlerCore, hrun1, hempty]

/-- Witness for C10's theorem: a single unreadable file still yields a
200 response with one remote call and filesUploaded 0. -/
theorem all_files_failing_still_invokes_witness :
    (handler ⟨"POST", some ⟨none, some ⟨"Ida", none, none, none, none⟩, none⟩,
        [⟨"bad.bin", "/tmp/c10", ⟨none, none, none⟩⟩]⟩ okOutcomes).response.status = 200 ∧
    (handler ⟨"POST", some ⟨none, some ⟨"Ida", none, none, none, none⟩, none⟩,
        [⟨"bad.bin", "/tmp/c10", ⟨none, none, none⟩⟩]⟩ okOutcomes).remoteCalls.length = 1 ∧
    (handler ⟨"POST", some ⟨none, some ⟨"Ida", none, none, none, none⟩, none⟩,
        [⟨"bad.bin", "/tmp/c10", ⟨none, none, none⟩⟩]⟩ okOutcomes).response.filesUploaded
      = some 0 :=
  all_files_failing_still_invokes _ okOutcomes
    ⟨none, some ⟨"Ida", none, none, none, none⟩, none⟩ ⟨"Ida", none, none, none, none⟩
    "ANALYSIS" rfl rfl rfl (by decide) (by decide) (by decide) rfl

end HealthTech
